import Mathlib

/-!
# Perpetua Goal Generator — verification of the batch synchronization pipeline

Shallow embedding of the goal-uploader scripts:
- the simplified API uploader (one goal per ASIN, `simplified_upload_progress.json` ledger),
- the CSV-driven API uploader (`agent_task_list.csv`, row-index checkpoint ledger),
- the harvesting-only uploader (same ledger shape as the simplified one).

Strings model JS strings; JS objects used as maps become association lists;
the mutable progress file and product cache become explicit state passed
through the functions.  Remote calls are modelled by passing their result in
as a parameter, together with counters for how many calls are issued.
-/

/-- Character-list version of JS `String.prototype.includes`: does `pat`
occur as a contiguous subsequence of `s`? -/
def listContainsSeq (pat : List Char) : List Char → Bool
  | [] => pat.isEmpty
  | c :: t => pat.isPrefixOf (c :: t) || listContainsSeq pat t

/-- JS `s.includes(pat)`. -/
def strIncludes (s pat : String) : Bool :=
  listContainsSeq pat.data s.data

/-- JS `String.prototype.split(',')` on a character list: splits at every
separator, keeping empty fragments (so `""` splits to `[""]`). -/
def splitListOn (sep : Char) : List Char → List (List Char)
  | [] => [[]]
  | c :: t =>
    let r := splitListOn sep t
    if c = sep then [] :: r
    else
      match r with
      | [] => [[c]]
      | h :: t2 => (c :: h) :: t2

/-- Trim ASCII/Unicode whitespace from both ends (JS `String.prototype.trim`). -/
def trimChars (cs : List Char) : List Char :=
  ((cs.dropWhile Char.isWhitespace).reverse.dropWhile Char.isWhitespace).reverse

/-- JS `s.trim()`. -/
def jsTrim (s : String) : String :=
  String.mk (trimChars s.data)

/-- JS `s.toLowerCase()` (ASCII case folding, as used on ASINs). -/
def jsToLower (s : String) : String :=
  String.mk (s.data.map Char.toLower)

/-- `keywords.split(',').map(k => k.trim()).filter(k => k)` from the CSV
uploader: split a comma-separated field, trim each entry, drop empties. -/
def splitCommaTrimFilter (s : String) : List String :=
  (((splitListOn ',' s.data).map (fun cs => jsTrim (String.mk cs))).filter
    (fun x => !(x == "")))

/-- Numeric value of a digit run. -/
def digitsVal : List Char → Nat
  | [] => 0
  | c :: t => digitsVal t + c.toNat % 48 * 10 ^ t.length

/-- JS `parseInt(s, 10)`: skip leading whitespace, optional sign, then the
longest leading run of decimal digits; `none` models `NaN` (no digits). -/
def parseIntJS (s : String) : Option Int :=
  let cs := s.data.dropWhile Char.isWhitespace
  match cs with
  | '-' :: rest =>
    let ds := rest.takeWhile Char.isDigit
    if ds.isEmpty then none else some (-(digitsVal ds : Int))
  | '+' :: rest =>
    let ds := rest.takeWhile Char.isDigit
    if ds.isEmpty then none else some (digitsVal ds : Int)
  | _ =>
    let ds := cs.takeWhile Char.isDigit
    if ds.isEmpty then none else some (digitsVal ds : Int)

/-- JS `parseInt(s, 10) || d`: `NaN` and `0` are falsy and give the default. -/
def parseIntOr (s : String) (d : Int) : Int :=
  match parseIntJS s with
  | none => d
  | some n => if n = 0 then d else n

/-- JS `s || d` on strings: the empty string is falsy. -/
def strOr (s d : String) : String :=
  if s = "" then d else s

/-! ## Progress Ledger (simplified / harvesting uploaders)

`saveProgress(asin, status, error)` reads `{completed: [], failed: []}`,
appends, and writes the whole document back.  Timestamps (`Date.now`) never
influence control flow; they are passed in as an abstract `Nat`. -/

/-- One entry of the `failed` list of the progress file. -/
structure FailedEntry where
  asin : String
  error : Option String
  timestamp : Nat
deriving Repr, DecidableEq

/-- The progress document `{completed: [...], failed: [...]}`. -/
structure Progress where
  completed : List String
  failed : List FailedEntry
deriving Repr, DecidableEq

/-- `saveProgress` of the simplified / harvesting uploaders: on `success`
push the ASIN onto `completed` unless already present; on `error` push a
failed entry; any other status leaves the document unchanged. -/
def saveProgress (p : Progress) (asin status : String) (error : Option String)
    (ts : Nat) : Progress :=
  if status = "success" then
    if asin ∈ p.completed then p
    else { p with completed := p.completed ++ [asin] }
  else if status = "error" then
    { p with failed := p.failed ++ [⟨asin, error, ts⟩] }
  else p

/-! ## Progress Ledger (CSV API uploader)

`saveProgress(rowIndex, goalName, status, error)` of the CSV uploader writes
a fresh single-record checkpoint; the previous file content is discarded. -/

/-- The CSV uploader's progress document: one checkpoint record. -/
structure ApiProgress where
  lastRowIndex : Nat
  lastGoalName : String
  status : String
  error : Option String
deriving Repr, DecidableEq

/-- `saveProgress` of the CSV API uploader: builds a fresh record from its
arguments and overwrites the file — the old state is not consulted. -/
def saveProgressApi (_old : Option ApiProgress) (rowIndex : Nat)
    (goalName status : String) (error : Option String) : ApiProgress :=
  ⟨rowIndex, goalName, status, error⟩

/-! ## Product Resolver -/

/-- One edge of the GraphQL `childProductListPerformance` response. -/
structure Edge where
  asin : String
  productId : Nat
deriving Repr, DecidableEq

/-- Outcome of one GraphQL product-search call: either the edge list, or a
thrown error (non-2xx response / network failure). -/
inductive SearchResult where
  | ok (edges : List Edge)
  | err (msg : String)
deriving Repr, DecidableEq

/-- The persistent product cache `product_cache.json`: ASIN to product id. -/
abbrev Cache := List (String × Nat)

/-- First binding for a key in the association list (JS property lookup). -/
def cacheFind (c : Cache) (asin : String) : Option Nat :=
  match c.find? (fun e => e.1 == asin) with
  | some e => some e.2
  | none => none

/-- JS `if (productCache[asin])`: the lookup counts as a hit only when the
stored value is truthy (a product id `0` would be falsy). -/
def cacheHit (c : Cache) (asin : String) : Option Nat :=
  match cacheFind c asin with
  | some v => if v = 0 then none else some v
  | none => none

/-- JS `productCache[asin] = productId` (insert or overwrite). -/
def cacheInsert (c : Cache) (asin : String) (v : Nat) : Cache :=
  (asin, v) :: (List.filter (fun e => !(e.1 == asin)) c)

/-- `getProductId(asin)` of the simplified / harvesting uploaders: serve a
truthy cache entry with no remote call; otherwise issue one search call and
accept only an exact ASIN match, caching it; empty results, no exact match,
or a thrown error yield `null` and cache nothing.  Returns the result, the
cache after the call, and the number of remote lookup calls issued. -/
def getProductId (remote : SearchResult) (cache : Cache) (asin : String) :
    Option Nat × Cache × Nat :=
  match cacheHit cache asin with
  | some pid => (some pid, cache, 0)
  | none =>
    match remote with
    | .ok edges =>
      match edges.find? (fun e => e.asin == asin) with
      | some e => (some e.productId, cacheInsert cache asin e.productId, 1)
      | none => (none, cache, 1)
    | .err _ => (none, cache, 1)

/-- Total number of remote lookup calls issued when the same ASIN is
resolved twice in a row (the cache resulting from the first resolution is
used for the second). -/
def resolveTwiceLookups (r1 r2 : SearchResult) (cache : Cache)
    (asin : String) : Nat :=
  match getProductId r1 cache asin with
  | (_, c1, k1) => k1 + (getProductId r2 c1 asin).2.2

/-! ## Payload Builder -/

/-- One `search_space_keywords` / `negative_keyword_overrides` entry. -/
structure KeywordEntry where
  keyword_text : String
  match_type : String
deriving Repr, DecidableEq

/-- The `keyword_harvesting` block of a goal payload. -/
structure Harvesting where
  harvesting_mode : String
  user_enabled_match_types : List String
  criteria_type : String
  conversion_threshold : Nat
  phrases : List String
deriving Repr, DecidableEq

/-- The goal-creation request body POSTed to
`/uni_goals/MULTI_AD_GROUP_CUSTOM_GOAL/`. -/
structure Payload where
  title : String
  enabled : Bool
  campaign_bidding_strategy : String
  max_budget : Int
  target_acos : ℚ
  products : List Nat
  search_space_keywords : List KeywordEntry
  negative_keyword_overrides : List KeywordEntry
  optimization_objective : String
  keyword_harvesting : Option Harvesting
deriving Repr, DecidableEq

/-- JS `s.substring(0, 60)`. -/
def jsSub60 (s : String) : String :=
  String.mk (s.data.take 60)

/-- The untruncated goal name of the simplified / harvesting uploaders:
`` `${sku} -JN[SP_NON-BRANDED]` ``. -/
def rawGoalNameSimplified (sku : String) : String :=
  sku ++ " -JN[SP_NON-BRANDED]"

/-- The stored goal name of the simplified / harvesting uploaders: the raw
name hard-truncated with `.substring(0, 60)`. -/
def goalNameSimplified (sku : String) : String :=
  jsSub60 (rawGoalNameSimplified sku)

/-- The keyword lists of one simplified-uploader task
(`unbranded_keywords.json` entry). -/
structure TaskData where
  sku : String
  exact : List String
  phrase : List String
  broad : List String
deriving Repr, DecidableEq

/-- The `search_space_keywords` array of the simplified uploader: all exact,
then phrase, then broad keywords, each tagged with its match type. -/
def searchSpaceSimplified (kws : TaskData) : List KeywordEntry :=
  kws.exact.map (fun kw => ⟨kw, "EXACT"⟩)
    ++ kws.phrase.map (fun kw => ⟨kw, "PHRASE"⟩)
    ++ kws.broad.map (fun kw => ⟨kw, "BROAD"⟩)

/-- The simplified uploader's payload for a resolved product: `$50` budget,
`60%` ACOS, harvesting always `AUTOMATICALLY_ADD` over all match types. -/
def buildPayloadSimplified (pid : Nat) (sku : String) (kws : TaskData) :
    Payload where
  title := goalNameSimplified sku
  enabled := true
  campaign_bidding_strategy := "BIDDING_STRATEGY_LEGACY_FOR_SALES"
  max_budget := 50
  target_acos := (60 : ℚ) / 100
  products := [pid]
  search_space_keywords := searchSpaceSimplified kws
  negative_keyword_overrides := []
  optimization_objective := "ACOS_COMPLIANCE"
  keyword_harvesting := some
    ⟨"AUTOMATICALLY_ADD", ["EXACT", "PHRASE", "BROAD"],
      "keyword_targeting_simple", 1, []⟩

/-- Result of one `createGoal` invocation before the driver classifies it:
either an early `{skipped, reason}` return, or a built payload whose POST is
about to be issued — `created` is the single point where the remote create
call happens. -/
inductive GoalResult where
  | skipped (reason : String)
  | created (p : Payload)
deriving Repr, DecidableEq

/-- Does this `createGoal` result issue the remote create call? -/
def isCreateCall : GoalResult → Bool
  | .skipped _ => false
  | .created _ => true

/-- `createGoal(asin, sku, keywords)` of the simplified uploader: resolve the
product (skip when unresolved), assemble the keyword list (skip when empty),
otherwise build the payload and POST it.  Also returns the product cache
after the embedded resolution. -/
def createGoalSimplified (remote : SearchResult) (cache : Cache)
    (asin sku : String) (kws : TaskData) : GoalResult × Cache :=
  match getProductId remote cache asin with
  | (none, c, _) => (.skipped ("Product not found for ASIN: " ++ asin), c)
  | (some pid, c, _) =>
    if (searchSpaceSimplified kws).length = 0 then
      (.skipped "No keywords found", c)
    else
      (.created (buildPayloadSimplified pid sku kws), c)

/-! ## Payload Builder (CSV API uploader) -/

/-- One row of `agent_task_list.csv` as the CSV uploader destructures it.
A missing or empty CSV column is the empty string (both are falsy in JS). -/
structure CsvTask where
  goalName : String
  campaignType : String
  asin : String
  matchType : String
  dailyBudget : String
  targetAcos : String
  keywords : String
  patTargets : String
  negativeExact : String
  negativePhrase : String
  negativeAsins : String
deriving Repr, DecidableEq

/-- `patTargets.split(',').map(t => t.trim().toLowerCase()).filter(t => t)`. -/
def splitPatTargets (s : String) : List String :=
  (((splitListOn ',' s.data).map
      (fun cs => jsToLower (jsTrim (String.mk cs)))).filter
    (fun x => !(x == "")))

/-- `campaignType === 'SingleCampaign_PAT' || matchType === 'PAT'`. -/
def isPATCampaignApi (t : CsvTask) : Bool :=
  t.campaignType == "SingleCampaign_PAT" || t.matchType == "PAT"

/-- `goalName.includes('BRANDED')` — the CSV uploader's branded test. -/
def isBrandedCampaignApi (t : CsvTask) : Bool :=
  strIncludes t.goalName "BRANDED"

/-- `createGoal(goalData)` of the CSV API uploader, payload-assembly part:
the CSV `Goal Name` is stored as the title verbatim, budget and ACOS fall
back to `10` and `30` on falsy `parseInt` results, keyword-mode rows get a
harvesting block whose mode is `MANUALLY_APPROVE` exactly when the goal name
contains `BRANDED`, PAT rows replace the search space with
`TARGETING_EXPRESSION` targets and get no harvesting block, and negative
ASINs are appended to the negative overrides as `TARGETING_EXPRESSION`. -/
def buildPayloadApi (t : CsvTask) (pid : Nat) : Payload :=
  let searchSpaceKeywords :=
    if t.keywords = "" then []
    else (splitCommaTrimFilter t.keywords).map
      (fun kw => KeywordEntry.mk kw (strOr t.matchType "EXACT"))
  let negativeKeywordOverrides :=
    (if t.negativeExact = "" then []
     else (splitCommaTrimFilter t.negativeExact).map
       (fun kw => KeywordEntry.mk kw "EXACT"))
    ++
    (if t.negativePhrase = "" then []
     else (splitCommaTrimFilter t.negativePhrase).map
       (fun kw => KeywordEntry.mk kw "PHRASE"))
  let negativeAsinList :=
    if t.negativeAsins = "" then [] else splitCommaTrimFilter t.negativeAsins
  let base : Payload :=
    { title := t.goalName
      enabled := true
      campaign_bidding_strategy := "BIDDING_STRATEGY_LEGACY_FOR_SALES"
      max_budget := parseIntOr t.dailyBudget 10
      target_acos := (parseIntOr t.targetAcos 30 : ℚ) / 100
      products := [pid]
      search_space_keywords := searchSpaceKeywords
      negative_keyword_overrides := negativeKeywordOverrides
      optimization_objective := "ACOS_COMPLIANCE"
      keyword_harvesting := none }
  let withHarvest :=
    if isPATCampaignApi t then base
    else
      { base with
          keyword_harvesting := some
            ⟨if isBrandedCampaignApi t then "MANUALLY_APPROVE"
              else "AUTOMATICALLY_ADD",
              [strOr t.matchType "EXACT"], "keyword_targeting_simple", 1, []⟩ }
  let withPat :=
    if isPATCampaignApi t && !(t.patTargets == "") then
      { withHarvest with
          search_space_keywords :=
            (splitPatTargets t.patTargets).map
              (fun a => KeywordEntry.mk a "TARGETING_EXPRESSION") }
    else withHarvest
  if negativeAsinList.length ≠ 0 then
    { withPat with
        negative_keyword_overrides :=
          negativeKeywordOverrides
            ++ negativeAsinList.map
              (fun a => KeywordEntry.mk (jsToLower a) "TARGETING_EXPRESSION") }
  else withPat

/-- `createGoal(goalData)` of the CSV API uploader at driver granularity:
skip when the product did not resolve, otherwise POST the built payload.
There is no empty-keyword skip in this uploader. -/
def createGoalApi (resolved : Option Nat) (t : CsvTask) : GoalResult :=
  match resolved with
  | none => .skipped ("Product not found for ASIN: " ++ t.asin)
  | some pid => .created (buildPayloadApi t pid)

/-! ## Batch Driver (simplified / harvesting uploaders)

Both drivers share the same loop: filter out completed ASINs, then for each
remaining ASIN attempt `createGoal`; a `{skipped}` result bumps a counter
and `continue`s, a success is recorded and followed by the rate-limit sleep,
a thrown error is recorded and either halts the run (fatal classification)
or continues after the sleep.  `continue` and `break` both bypass the
`sleep` at the bottom of the loop body. -/

/-- Driver-level outcome of one `createGoal` attempt: an early skip, a
successful POST, or a thrown error message. -/
inductive AttemptResult where
  | skip (reason : String)
  | success
  | error (msg : String)
deriving Repr, DecidableEq

/-- `error.message.includes('401') || error.message.includes('403')`. -/
def isFatalAuth (msg : String) : Bool :=
  strIncludes msg "401" || strIncludes msg "403"

/-- `error.message.includes('cannot create any more')`. -/
def isFatalLimit (msg : String) : Bool :=
  strIncludes msg "cannot create any more"

/-- The simplified uploader halts on auth failures and on the account
goal-limit message. -/
def isFatalSimplified (msg : String) : Bool :=
  isFatalAuth msg || isFatalLimit msg

/-- In-run driver state: the ledger, the three counters printed at the end,
the number of rate-limit sleeps performed, the ASINs attempted so far, and
whether a fatal error has broken out of the loop. -/
structure RunState where
  progress : Progress
  successCount : Nat
  errorCount : Nat
  skippedCount : Nat
  sleeps : Nat
  attempted : List String
  halted : Bool
deriving Repr, DecidableEq

/-- Fresh driver state over a loaded ledger. -/
def initState (p : Progress) : RunState :=
  ⟨p, 0, 0, 0, 0, [], false⟩

/-- One iteration of the driver loop body on task `asin` whose attempt ends
as `r`, with `fatal` the uploader's fatal-error classifier.  A halted state
is absorbing (the loop was left by `break`). -/
def stepDriver (fatal : String → Bool) (st : RunState) (asin : String)
    (r : AttemptResult) : RunState :=
  if st.halted then st
  else
    match r with
    | .skip _ =>
      { st with
          attempted := st.attempted ++ [asin]
          skippedCount := st.skippedCount + 1 }
    | .success =>
      { st with
          attempted := st.attempted ++ [asin]
          progress := saveProgress st.progress asin "success" none 0
          successCount := st.successCount + 1
          sleeps := st.sleeps + 1 }
    | .error m =>
      let st1 :=
        { st with
            attempted := st.attempted ++ [asin]
            progress := saveProgress st.progress asin "error" (some m) 0
            errorCount := st.errorCount + 1 }
      if fatal m then { st1 with halted := true }
      else { st1 with sleeps := st1.sleeps + 1 }

/-- The driver loop over a task list, with `env` giving each task's attempt
outcome. -/
def runDriver (fatal : String → Bool) (env : String → AttemptResult) :
    List String → RunState → RunState
  | [], st => st
  | a :: rest, st => runDriver fatal env rest (stepDriver fatal st a (env a))

/-- `asins.filter(asin => !completedAsins.has(asin))`: the order-preserving
set difference computed at run start. -/
def remainingAsins (asins completed : List String) : List String :=
  asins.filter (fun a => decide (a ∉ completed))

/-- `args.limit > 0 ? Math.min(args.limit, remaining.length) : remaining.length`. -/
def endIndexOf (limit n : Nat) : Nat :=
  if 0 < limit then min limit n else n

/-- The ASINs one invocation of the simplified uploader feeds to its loop. -/
def processedAsins (asins completed : List String) (limit : Nat) :
    List String :=
  let rem := remainingAsins asins completed
  rem.take (endIndexOf limit rem.length)

/-- A whole simplified-uploader invocation at driver granularity. -/
def mainSimplified (env : String → AttemptResult) (asins : List String)
    (p : Progress) (limit : Nat) : RunState :=
  runDriver isFatalSimplified env (processedAsins asins p.completed limit)
    (initState p)

/-! ## Batch Driver (CSV API uploader) -/

/-- Start-row resolution of the CSV uploader: with a saved checkpoint and no
explicit `--start-row`, the operator is asked whether to resume; answering
yes restarts at `lastRowIndex + 1`, answering no keeps row `0`. -/
def apiResumeStartRow (startRowArg : Nat) (p : Option ApiProgress)
    (answerYes : Bool) : Nat :=
  match p with
  | none => startRowArg
  | some prog =>
    if startRowArg = 0 ∧ answerYes then prog.lastRowIndex + 1 else startRowArg

/-- The goal rows `startRow .. endRow - 1` the CSV uploader processes. -/
def apiProcessed (goals : List String) (startRow limit : Nat) : List String :=
  let endRow :=
    if 0 < limit then min (startRow + limit) goals.length else goals.length
  (goals.take endRow).drop startRow

/-! ## Auxiliary definitions used by the statements below -/

/-- Modelled from the spec: the CSV `Goal Name` column is produced by the
repository's Python generator (`main.py`, not among the uploader sources);
per the README its goal titles are the convention name capped at 60
characters (`Goal Title | Max 60 characters`). -/
def genGoalTitle (raw : String) : String :=
  jsSub60 raw

/-- `1` when the driver has broken out of its loop, else `0`. -/
def haltBit (st : RunState) : Nat :=
  if st.halted then 1 else 0

/-- Environment in which every attempt ends as a resolver skip. -/
def envSkip : String → AttemptResult :=
  fun _ => .skip "Product not found for ASIN: A"

/-- Environment in which task `A` hits the account goal-limit rejection and
every other task succeeds. -/
def envLimit : String → AttemptResult :=
  fun a =>
    if a == "A" then .error "API error 400: cannot create any more goals"
    else .success

/-- Environment in which every attempt succeeds. -/
def envOk : String → AttemptResult :=
  fun _ => .success

/-- A keyword-mode CSV row with an empty `Keywords` field. -/
def taskNoKeywords : CsvTask :=
  ⟨"NT15511A - B07Y5L9WLP [SP_MANUAL_EXACT] JN", "SingleCampaign_KW",
    "B07Y5L9WLP", "EXACT", "10", "30", "", "", "", "", ""⟩

/-- A branded keyword-mode CSV row. -/
def taskBranded : CsvTask :=
  ⟨"NT15511A - B07Y5L9WLP [SP_BRANDED_EXACT] JN", "SingleCampaign_KW",
    "B07Y5L9WLP", "EXACT", "10", "30", "vitamin c", "", "", "", ""⟩

/-- An unbranded (manual-segment) keyword-mode CSV row. -/
def taskUnbranded : CsvTask :=
  ⟨"NT15511A - B07Y5L9WLP [SP_MANUAL_EXACT] JN", "SingleCampaign_KW",
    "B07Y5L9WLP", "EXACT", "10", "30", "vitamin c", "", "", "", ""⟩

/-- A product-attribute-targeting CSV row. -/
def taskPat : CsvTask :=
  ⟨"NT15511A - B07Y5L9WLP [SP_COMPETITOR_PAT] JN", "SingleCampaign_PAT",
    "B07Y5L9WLP", "PAT", "10", "30", "", "B08AAAAAAA", "", "", ""⟩

/-- A CSV row whose budget and ACOS columns are empty. -/
def taskBlankNumbers : CsvTask :=
  ⟨"NT15511A - B07Y5L9WLP [SP_MANUAL_EXACT] JN", "SingleCampaign_KW",
    "B07Y5L9WLP", "EXACT", "", "", "vitamin c", "", "", "", ""⟩

/-- A CSV row with explicit numeric budget and ACOS columns. -/
def taskNumbers : CsvTask :=
  ⟨"NT15511A - B07Y5L9WLP [SP_MANUAL_EXACT] JN", "SingleCampaign_KW",
    "B07Y5L9WLP", "EXACT", "25", "45", "vitamin c", "", "", "", ""⟩

/-- A 50-character SKU, long enough that its derived goal name overflows the
60-character cap. -/
def skuLong : String :=
  String.mk (List.replicate 50 'A')

/-! ## Helper lemmas -/

set_option maxHeartbeats 1000000

theorem buildPayloadApi_base_fields (t : CsvTask) (pid : Nat) :
    (buildPayloadApi t pid).title = t.goalName ∧
    (buildPayloadApi t pid).max_budget = parseIntOr t.dailyBudget 10 ∧
    (buildPayloadApi t pid).target_acos = (parseIntOr t.targetAcos 30 : ℚ) / 100 ∧
    (buildPayloadApi t pid).products = [pid] := by
  refine ⟨?_, ?_, ?_, ?_⟩ <;> (simp only [buildPayloadApi]; repeat' split) <;> rfl

theorem buildPayloadApi_harvest_block (t : CsvTask) (pid : Nat) :
    (buildPayloadApi t pid).keyword_harvesting =
      if isPATCampaignApi t then none
      else some ⟨(if isBrandedCampaignApi t then "MANUALLY_APPROVE"
            else "AUTOMATICALLY_ADD"),
          [strOr t.matchType "EXACT"], "keyword_targeting_simple", 1, []⟩ := by
  simp only [buildPayloadApi]
  repeat' split
  all_goals simp_all

theorem buildPayloadApi_search_space_empty (t : CsvTask) (pid : Nat)
    (hk : t.keywords = "") (hp : isPATCampaignApi t = false) :
    (buildPayloadApi t pid).search_space_keywords = [] := by
  simp only [buildPayloadApi, hk, hp]
  repeat' split
  all_goals simp_all

theorem runDriver_halted (f : String → Bool) (env : String → AttemptResult) :
    ∀ (l : List String) (st : RunState), st.halted = true →
      runDriver f env l st = st := by
  intro l
  induction l with
  | nil => intro st _; rfl
  | cons a rest ih =>
    intro st h
    show runDriver f env rest (stepDriver f st a (env a)) = st
    rw [show stepDriver f st a (env a) = st by simp [stepDriver, h]]
    exact ih st h

theorem mem_attempted_stepDriver (f : String → Bool) (st : RunState)
    (b : String) (r : AttemptResult) (a : String)
    (h : a ∈ (stepDriver f st b r).attempted) :
    a ∈ st.attempted ∨ a = b := by
  cases r <;> unfold stepDriver at h <;> split_ifs at h <;>
    simp_all [apply_ite RunState.attempted]

theorem mem_attempted_runDriver (f : String → Bool)
    (env : String → AttemptResult) :
    ∀ (l : List String) (st : RunState) (a : String),
      a ∈ (runDriver f env l st).attempted → a ∈ st.attempted ∨ a ∈ l := by
  intro l
  induction l with
  | nil => intro st a h; exact Or.inl h
  | cons b rest ih =>
    intro st a h
    rcases ih (stepDriver f st b (env b)) a h with h2 | h2
    · rcases mem_attempted_stepDriver f st b (env b) a h2 with h3 | h3
      · exact Or.inl h3
      · exact Or.inr (by simp [h3])
    · exact Or.inr (by simp [h2])

theorem sleeps_invariant_step (f : String → Bool) (st : RunState)
    (b : String) (r : AttemptResult)
    (h : st.sleeps + haltBit st = st.successCount + st.errorCount) :
    (stepDriver f st b r).sleeps + haltBit (stepDriver f st b r)
      = (stepDriver f st b r).successCount + (stepDriver f st b r).errorCount := by
  cases r with
  | skip reason =>
    unfold stepDriver; split_ifs <;> simp_all [haltBit]
  | success =>
    unfold stepDriver
    split_ifs <;> (simp_all [haltBit]; try omega)
  | error m =>
    unfold stepDriver
    by_cases hh : st.halted = true
    · simp_all [haltBit]
    · by_cases hf : f m = true <;> simp_all [haltBit] <;> omega

theorem sleeps_invariant_run (f : String → Bool)
    (env : String → AttemptResult) :
    ∀ (l : List String) (st : RunState),
      st.sleeps + haltBit st = st.successCount + st.errorCount →
      (runDriver f env l st).sleeps + haltBit (runDriver f env l st)
        = (runDriver f env l st).successCount
          + (runDriver f env l st).errorCount := by
  intro l
  induction l with
  | nil => intro st h; exact h
  | cons b rest ih =>
    intro st h
    exact ih (stepDriver f st b (env b)) (sleeps_invariant_step f st b (env b) h)

theorem cacheHit_cacheInsert (c : Cache) (asin : String) (pid : Nat)
    (h : pid ≠ 0) : cacheHit (cacheInsert c asin pid) asin = some pid := by
  simp [cacheHit, cacheFind, cacheInsert, List.find?, h]

theorem jsSub60_length (s : String) : (jsSub60 s).length = min 60 s.length := by
  show (s.data.take 60).length = min 60 s.data.length
  exact List.length_take 60 s.data

/-! ## Claim C3 — goal-title truncation -/

/-- Claim C3: the goal title built from the task's SKU/segment labels never
exceeds 60 characters; when the derived name is longer than 60 characters
the stored title is exactly 60 characters and a prefix of the untruncated
name.  The simplified/harvesting uploaders truncate with `.substring(0,60)`;
the CSV uploader stores the generator-built `Goal Name` verbatim, and the
generator's titles (modelled from the spec as `genGoalTitle`) obey the same
60-character cap. -/
theorem goal_title_capped_at_60 (sku raw : String) (kws : TaskData)
    (pid pid2 : Nat) (t : CsvTask) :
    (goalNameSimplified sku).length ≤ 60 ∧
    (60 < (rawGoalNameSimplified sku).length →
      (goalNameSimplified sku).length = 60 ∧
      (goalNameSimplified sku).data <+: (rawGoalNameSimplified sku).data) ∧
    (buildPayloadSimplified pid sku kws).title = goalNameSimplified sku ∧
    (buildPayloadApi t pid2).title = t.goalName ∧
    (genGoalTitle raw).length ≤ 60 ∧
    (genGoalTitle raw).data <+: raw.data := by
  refine ⟨?_, ?_, rfl, (buildPayloadApi_base_fields t pid2).1, ?_, ?_⟩
  · rw [show goalNameSimplified sku = jsSub60 (rawGoalNameSimplified sku)
      from rfl, jsSub60_length]
    exact min_le_left _ _
  · intro h
    refine ⟨?_, List.take_prefix 60 _⟩
    rw [show goalNameSimplified sku = jsSub60 (rawGoalNameSimplified sku)
      from rfl, jsSub60_length]
    exact Nat.min_eq_left (le_of_lt h)
  · rw [show genGoalTitle raw = jsSub60 raw from rfl, jsSub60_length]
    exact min_le_left _ _
  · exact List.take_prefix 60 _

/-- Concrete instance of `goal_title_capped_at_60`: a 50-character SKU
produces a 70-character raw name, stored as its 60-character prefix. -/
theorem goal_title_capped_at_60_witness :
    60 < (rawGoalNameSimplified skuLong).length ∧
    (goalNameSimplified skuLong).length = 60 ∧
    (goalNameSimplified skuLong).data <+: (rawGoalNameSimplified skuLong).data :=
  ⟨by decide,
    ((goal_title_capped_at_60 skuLong "x" ⟨"s", [], [], []⟩ 1 1
        taskNumbers).2.1 (by decide)).1,
    ((goal_title_capped_at_60 skuLong "x" ⟨"s", [], [], []⟩ 1 1
        taskNumbers).2.1 (by decide)).2⟩

/-! ## Claim C10 — budget and ACOS parsing defaults -/

/-- Claim C10: in the CSV uploader's payload, `max_budget` is the `Daily
Budget` column parsed as an integer, except that a missing, non-numeric, or
zero value yields the default `10`; `target_acos` is the `Target ACOS`
column parsed as an integer divided by `100`, with missing, non-numeric, or
zero values yielding `30 / 100 = 0.30`. -/
theorem budget_acos_parse_defaults (t : CsvTask) (pid : Nat) :
    (parseIntJS t.dailyBudget = none →
      (buildPayloadApi t pid).max_budget = 10) ∧
    (parseIntJS t.dailyBudget = some 0 →
      (buildPayloadApi t pid).max_budget = 10) ∧
    (∀ n : Int, n ≠ 0 → parseIntJS t.dailyBudget = some n →
      (buildPayloadApi t pid).max_budget = n) ∧
    (parseIntJS t.targetAcos = none →
      (buildPayloadApi t pid).target_acos = 30 / 100) ∧
    (parseIntJS t.targetAcos = some 0 →
      (buildPayloadApi t pid).target_acos = 30 / 100) ∧
    (∀ n : Int, n ≠ 0 → parseIntJS t.targetAcos = some n →
      (buildPayloadApi t pid).target_acos = (n : ℚ) / 100) := by
  obtain ⟨-, hb, ha, -⟩ := buildPayloadApi_base_fields t pid
  refine ⟨?_, ?_, ?_, ?_, ?_, ?_⟩
  · intro h; rw [hb]; simp [parseIntOr, h]
  · intro h; rw [hb]; simp [parseIntOr, h]
  · intro n hn h; rw [hb]; simp [parseIntOr, h, hn]
  · intro h; rw [ha]; simp [parseIntOr, h]
  · intro h; rw [ha]; simp [parseIntOr, h]
  · intro n hn h; rw [ha]; simp [parseIntOr, h, hn]

/-- Concrete instance of `budget_acos_parse_defaults`: blank columns give
the `10` / `0.30` defaults, numeric columns are taken verbatim. -/
theorem budget_acos_parse_defaults_witness :
    (buildPayloadApi taskBlankNumbers 1).max_budget = 10 ∧
    (buildPayloadApi taskBlankNumbers 1).target_acos = 30 / 100 ∧
    (buildPayloadApi taskNumbers 1).max_budget = 25 ∧
    (buildPayloadApi taskNumbers 1).target_acos = ((45 : Int) : ℚ) / 100 :=
  ⟨(budget_acos_parse_defaults taskBlankNumbers 1).1 (by decide),
    (budget_acos_parse_defaults taskBlankNumbers 1).2.2.2.1 (by decide),
    (budget_acos_parse_defaults taskNumbers 1).2.2.1 25 (by decide) (by decide),
    (budget_acos_parse_defaults taskNumbers 1).2.2.2.2.2 45 (by decide)
      (by decide)⟩

/-! ## Claim C6 — harvesting mode by segment -/

/-- Claim C6: keyword-mode tasks get a keyword-harvesting block whose
approval mode depends on segment — branded segments (goal names containing
`BRANDED`, the repository's segment-detection convention) get
`MANUALLY_APPROVE`, all other segments get `AUTOMATICALLY_ADD` — and
product-attribute-targeting tasks get no harvesting block.  The simplified
uploader (unbranded-only by construction) always attaches
`AUTOMATICALLY_ADD`. -/
theorem harvesting_mode_by_segment (t : CsvTask) (pid pid2 : Nat)
    (sku : String) (kws : TaskData) :
    (isPATCampaignApi t = false → isBrandedCampaignApi t = true →
      (buildPayloadApi t pid).keyword_harvesting =
        some ⟨"MANUALLY_APPROVE", [strOr t.matchType "EXACT"],
          "keyword_targeting_simple", 1, []⟩) ∧
    (isPATCampaignApi t = false → isBrandedCampaignApi t = false →
      (buildPayloadApi t pid).keyword_harvesting =
        some ⟨"AUTOMATICALLY_ADD", [strOr t.matchType "EXACT"],
          "keyword_targeting_simple", 1, []⟩) ∧
    (isPATCampaignApi t = true →
      (buildPayloadApi t pid).keyword_harvesting = none) ∧
    (buildPayloadSimplified pid2 sku kws).keyword_harvesting =
      some ⟨"AUTOMATICALLY_ADD", ["EXACT", "PHRASE", "BROAD"],
        "keyword_targeting_simple", 1, []⟩ := by
  have hh := buildPayloadApi_harvest_block t pid
  refine ⟨?_, ?_, ?_, rfl⟩
  · intro hp hb; rw [hh]; simp [hp, hb]
  · intro hp hb; rw [hh]; simp [hp, hb]
  · intro hp; rw [hh]; simp [hp]

/-- Concrete instance of `harvesting_mode_by_segment`: a branded row gets
manual approval, a manual-segment row gets auto-activation, a PAT row gets
no harvesting block. -/
theorem harvesting_mode_by_segment_witness :
    (buildPayloadApi taskBranded 7).keyword_harvesting =
      some ⟨"MANUALLY_APPROVE", ["EXACT"], "keyword_targeting_simple", 1, []⟩ ∧
    (buildPayloadApi taskUnbranded 7).keyword_harvesting =
      some ⟨"AUTOMATICALLY_ADD", ["EXACT"], "keyword_targeting_simple", 1, []⟩ ∧
    (buildPayloadApi taskPat 7).keyword_harvesting = none :=
  ⟨(harvesting_mode_by_segment taskBranded 7 0 "s" ⟨"s", [], [], []⟩).1
      (by decide) (by decide),
    (harvesting_mode_by_segment taskUnbranded 7 0 "s" ⟨"s", [], [], []⟩).2.1
      (by decide) (by decide),
    (harvesting_mode_by_segment taskPat 7 0 "s" ⟨"s", [], [], []⟩).2.2.1
      (by decide)⟩

/-! ## Claim C5 — empty keyword list -/

/-- Claim C5, amended: in the simplified uploader, a keyword task whose
keyword lists are all empty is skipped with reason `"No keywords found"`
(capital `N`) and no create call is made; the CSV API uploader has no such
skip — a keyword-mode row with an empty `Keywords` column still issues the
create call, with an empty `search_space_keywords` list. -/
theorem empty_keywords_skip (remote : SearchResult) (cache : Cache)
    (asin sku : String) (kws : TaskData) (pid0 : Nat) (t : CsvTask)
    (pid : Nat) :
    (kws.exact = [] → kws.phrase = [] → kws.broad = [] →
      (getProductId remote cache asin).1 = some pid0 →
      (createGoalSimplified remote cache asin sku kws).1
        = .skipped "No keywords found") ∧
    (t.keywords = "" → isPATCampaignApi t = false →
      createGoalApi (some pid) t = .created (buildPayloadApi t pid) ∧
      (buildPayloadApi t pid).search_space_keywords = []) := by
  constructor
  · intro h1 h2 h3 h4
    rcases hg : getProductId remote cache asin with ⟨r, c, k⟩
    rw [hg] at h4
    simp only at h4
    unfold createGoalSimplified
    rw [hg, h4]
    simp [searchSpaceSimplified, h1, h2, h3]
  · intro hk hp
    exact ⟨rfl, buildPayloadApi_search_space_empty t pid hk hp⟩

/-- Concrete instance of `empty_keywords_skip`. -/
theorem empty_keywords_skip_witness :
    (createGoalSimplified (.ok [⟨"B07Y5L9WLP", 42⟩]) [] "B07Y5L9WLP"
        "NT15511A" ⟨"NT15511A", [], [], []⟩).1 = .skipped "No keywords found" ∧
    createGoalApi (some 42) taskNoKeywords
      = .created (buildPayloadApi taskNoKeywords 42) ∧
    (buildPayloadApi taskNoKeywords 42).search_space_keywords = [] :=
  ⟨(empty_keywords_skip (.ok [⟨"B07Y5L9WLP", 42⟩]) [] "B07Y5L9WLP" "NT15511A"
      ⟨"NT15511A", [], [], []⟩ 42 taskNoKeywords 42).1 rfl rfl rfl (by decide),
    ((empty_keywords_skip (.ok [⟨"B07Y5L9WLP", 42⟩]) [] "B07Y5L9WLP"
        "NT15511A" ⟨"NT15511A", [], [], []⟩ 42 taskNoKeywords 42).2
      rfl (by decide)).1,
    ((empty_keywords_skip (.ok [⟨"B07Y5L9WLP", 42⟩]) [] "B07Y5L9WLP"
        "NT15511A" ⟨"NT15511A", [], [], []⟩ 42 taskNoKeywords 42).2
      rfl (by decide)).2⟩

/-- Counterexample to claim C5 as stated: a keyword-mode CSV row with an
empty positive term list is not skipped by the CSV API uploader — the
remote create call is issued. -/
theorem api_uploader_creates_with_empty_keywords :
    taskNoKeywords.keywords = "" ∧
    isPATCampaignApi taskNoKeywords = false ∧
    isCreateCall (createGoalApi (some 42) taskNoKeywords) = true :=
  ⟨rfl, by decide, rfl⟩

/-! ## Claim C7 — cache short-circuit -/

/-- Claim C7, amended: a truthy cache entry is served with no remote lookup
call; one resolution issues at most one lookup; and after a successful
resolution, resolving the same ASIN again is served from the cache with no
lookup (so two resolutions of an identifier whose first resolution succeeds
issue at most one lookup in total).  When the first resolution returns
NotFound, nothing is cached and a second resolution issues another lookup
(see the counterexample). -/
theorem cache_hit_short_circuits (remote remote2 : SearchResult)
    (cache : Cache) (asin : String) (pid : Nat) :
    (cacheHit cache asin = some pid →
      getProductId remote cache asin = (some pid, cache, 0)) ∧
    (getProductId remote cache asin).2.2 ≤ 1 ∧
    (∀ (c2 : Cache) (k : Nat), pid ≠ 0 →
      getProductId remote cache asin = (some pid, c2, k) →
      getProductId remote2 c2 asin = (some pid, c2, 0)) := by
  refine ⟨?_, ?_, ?_⟩
  · intro h; simp [getProductId, h]
  · unfold getProductId
    repeat' split
    all_goals simp
  · intro c2 k hpid heq
    rcases hch : cacheHit cache asin with _ | q
    · cases remote with
      | ok edges =>
        cases hf : edges.find? (fun e => e.asin == asin) with
        | some e =>
          have hinj : some e.productId = some pid
              ∧ cacheInsert cache asin e.productId = c2 := by
            have := heq
            simp [getProductId, hch, hf] at this
            exact ⟨congrArg some this.1, this.2.1⟩
          obtain ⟨h1, h2⟩ := hinj
          have h3 : e.productId = pid := by injection h1
          rw [h3] at h2
          rw [← h2]
          simp [getProductId, cacheHit_cacheInsert cache asin pid hpid]
        | none =>
          simp [getProductId, hch, hf] at heq
      | err m =>
        simp [getProductId, hch] at heq
    · have hinj : q = pid ∧ cache = c2 := by
        have := heq
        simp [getProductId, hch] at this
        exact ⟨this.1, this.2.1⟩
      obtain ⟨h1, h2⟩ := hinj
      rw [← h2]
      rw [h1] at hch
      simp [getProductId, hch]

/-- Concrete instance of `cache_hit_short_circuits`: a cached ASIN is served
with zero lookups even when the remote would fail, both on a direct hit and
after a first resolution populated the cache. -/
theorem cache_hit_short_circuits_witness :
    getProductId (.ok []) [("B07Y5L9WLP", 42)] "B07Y5L9WLP"
      = (some 42, [("B07Y5L9WLP", 42)], 0) ∧
    getProductId (.err "search failed") [("B07Y5L9WLP", 42)] "B07Y5L9WLP"
      = (some 42, [("B07Y5L9WLP", 42)], 0) :=
  ⟨(cache_hit_short_circuits (.ok []) (.ok []) [("B07Y5L9WLP", 42)]
      "B07Y5L9WLP" 42).1 (by decide),
    (cache_hit_short_circuits (.ok [⟨"B07Y5L9WLP", 42⟩]) (.err "search failed")
        [] "B07Y5L9WLP" 42).2.2 [("B07Y5L9WLP", 42)] 1 (by decide) (by decide)⟩

/-- Counterexample to claim C7 as stated: an ASIN whose search returns an
empty edge list resolves to NotFound, nothing is cached, and resolving it
twice issues two remote lookup calls, not at most one. -/
theorem notfound_resolved_twice_two_lookups :
    resolveTwiceLookups (.ok []) (.ok []) [] "B07Y5L9WLP" = 2 := by decide

/-! ## Claim C9 — append/merge-only ledger -/

/-- Claim C9, amended: the list-shaped ledgers (simplified, harvesting
uploaders) are append/merge-only — every `saveProgress` keeps the existing
`completed` identifiers and `failed` entries as a prefix of the new lists,
and recording a success for an already-completed identifier leaves the
document unchanged.  The CSV uploader's ledger is a single-record
checkpoint that each write replaces wholesale (see the counterexample). -/
theorem ledger_append_merge_only (p : Progress) (asin status : String)
    (err : Option String) (ts : Nat) :
    p.completed <+: (saveProgress p asin status err ts).completed ∧
    p.failed <+: (saveProgress p asin status err ts).failed ∧
    (status = "success" → asin ∈ p.completed →
      saveProgress p asin status err ts = p) := by
  unfold saveProgress
  split_ifs <;> simp_all [List.prefix_append, List.prefix_refl]

/-- Concrete instance of `ledger_append_merge_only`. -/
theorem ledger_append_merge_only_witness :
    (Progress.mk ["X"] []).completed <+:
      (saveProgress ⟨["X"], []⟩ "Y" "error" (some "API error 500: x") 3).completed ∧
    saveProgress ⟨["X"], []⟩ "X" "success" none 0 = ⟨["X"], []⟩ :=
  ⟨(ledger_append_merge_only ⟨["X"], []⟩ "Y" "error" (some "API error 500: x")
      3).1,
    (ledger_append_merge_only ⟨["X"], []⟩ "X" "success" none 0).2.2 rfl
      (by decide)⟩

/-- Counterexample to claim C9 as stated: the CSV uploader's ledger write is
not merge-only — after a success checkpoint for goal `X` (row 0), recording
an error for goal `Y` (row 1) overwrites the whole document, and the
success entry for `X` is gone. -/
theorem checkpoint_overwrites_success :
    (saveProgressApi none 0 "X" "success" none).status = "success" ∧
    (saveProgressApi (some (saveProgressApi none 0 "X" "success" none)) 1 "Y"
        "error" (some "API error 500: server error")).status = "error" ∧
    (saveProgressApi (some (saveProgressApi none 0 "X" "success" none)) 1 "Y"
        "error" (some "API error 500: server error")).lastGoalName ≠ "X" := by
  decide

/-! ## Claim C1 — resumable remaining set -/

/-- Claim C1, amended: in the uploaders with a completed-identifier ledger
(simplified, harvesting), the remaining work set is the order-preserving
set difference of the task list and the ledger's completed set, and no task
whose identifier is in the completed set is attempted in the run.  The CSV
uploader resumes by row index under operator confirmation instead (see the
counterexample). -/
theorem resume_skips_completed (asins completed : List String) (limit : Nat)
    (env : String → AttemptResult) (p : Progress) (a : String) :
    List.Sublist (remainingAsins asins completed) asins ∧
    (a ∈ remainingAsins asins completed ↔ a ∈ asins ∧ a ∉ completed) ∧
    (a ∈ (mainSimplified env asins p limit).attempted → a ∉ p.completed) := by
  refine ⟨List.filter_sublist _, ?_, ?_⟩
  · simp [remainingAsins]
  · intro h
    rcases mem_attempted_runDriver isFatalSimplified env
        (processedAsins asins p.completed limit) (initState p) a h with h2 | h2
    · simp [initState] at h2
    · have h3 : a ∈ remainingAsins asins p.completed :=
        List.take_subset _ _ h2
      simp [remainingAsins] at h3
      exact h3.2

/-- Concrete instance of `resume_skips_completed`: over tasks `X, Y, Z` with
`X` completed, `Z` is attempted and is indeed not in the completed set. -/
theorem resume_skips_completed_witness :
    "Z" ∈ (mainSimplified envOk ["X", "Y", "Z"] ⟨["X"], []⟩ 0).attempted ∧
    "Z" ∉ (["X"] : List String) :=
  ⟨by decide,
    (resume_skips_completed ["X", "Y", "Z"] ["X"] 0 envOk ⟨["X"], []⟩
      "Z").2.2 (by decide)⟩

/-- Counterexample to claim C1 as stated: the CSV uploader's ledger has no
completed-identifier set — it is a row-index checkpoint — and when the
operator declines to resume, the goal the checkpoint marks as a success
(`X`, row 0) is processed again in the same invocation. -/
theorem rowindex_resume_reattempts_completed :
    (ApiProgress.mk 0 "X" "success" none).status = "success" ∧
    "X" ∈ apiProcessed ["X", "Y"]
        (apiResumeStartRow 0 (some (ApiProgress.mk 0 "X" "success" none))
          false) 0 := by
  decide

/-! ## Claim C2 — fatal errors halt the run -/

/-- Claim C2, amended: in the simplified uploader, an error whose message
matches the fatal classification (`401`/`403` auth rejection, or the
account goal-limit message `cannot create any more`) is recorded in the
ledger and halts the run — no further task is attempted; an error matching
neither class is recorded and the run continues.  The harvesting uploader
halts only on the auth class: its runs continue after a goal-limit error
(see the counterexample). -/
theorem fatal_error_halts_run (st : RunState) (asin msg msg2 : String)
    (env : String → AttemptResult) (rest : List String) :
    (st.halted = false → isFatalSimplified msg = true →
      (stepDriver isFatalSimplified st asin (.error msg)).halted = true ∧
      (stepDriver isFatalSimplified st asin (.error msg)).progress
        = saveProgress st.progress asin "error" (some msg) 0 ∧
      runDriver isFatalSimplified env rest
          (stepDriver isFatalSimplified st asin (.error msg))
        = stepDriver isFatalSimplified st asin (.error msg)) ∧
    (st.halted = false → isFatalSimplified msg2 = false →
      (stepDriver isFatalSimplified st asin (.error msg2)).halted = false ∧
      (stepDriver isFatalSimplified st asin (.error msg2)).progress
        = saveProgress st.progress asin "error" (some msg2) 0) := by
  constructor
  · intro h hf
    have hstep : (stepDriver isFatalSimplified st asin (.error msg)).halted
        = true := by
      unfold stepDriver; simp [h, hf]
    refine ⟨hstep, ?_, runDriver_halted isFatalSimplified env rest _ hstep⟩
    unfold stepDriver; simp [h, hf]
  · intro h hf
    constructor <;> (unfold stepDriver; simp [h, hf])

/-- Concrete instance of `fatal_error_halts_run`: a 401 rejection is
recorded and halts (nothing after it runs), a 500 error is recorded and
does not halt. -/
theorem fatal_error_halts_run_witness :
    (stepDriver isFatalSimplified (initState ⟨[], []⟩) "A"
        (.error "API error 401: invalid token")).halted = true ∧
    runDriver isFatalSimplified envOk ["B"]
        (stepDriver isFatalSimplified (initState ⟨[], []⟩) "A"
          (.error "API error 401: invalid token"))
      = stepDriver isFatalSimplified (initState ⟨[], []⟩) "A"
          (.error "API error 401: invalid token") ∧
    (stepDriver isFatalSimplified (initState ⟨[], []⟩) "A"
        (.error "API error 500: server error")).halted = false :=
  ⟨((fatal_error_halts_run (initState ⟨[], []⟩) "A"
        "API error 401: invalid token" "API error 500: server error" envOk
        ["B"]).1 rfl (by decide)).1,
    ((fatal_error_halts_run (initState ⟨[], []⟩) "A"
        "API error 401: invalid token" "API error 500: server error" envOk
        ["B"]).1 rfl (by decide)).2.2,
    ((fatal_error_halts_run (initState ⟨[], []⟩) "A"
        "API error 401: invalid token" "API error 500: server error" envOk
        ["B"]).2 rfl (by decide)).1⟩

/-- Counterexample to claim C2 as stated: the harvesting uploader's driver
classifies only `401`/`403` as fatal, so after task `A` fails with the
account goal-limit rejection, task `B` is still attempted in the same
invocation. -/
theorem limit_error_not_fatal_in_harvesting :
    isFatalLimit "API error 400: cannot create any more goals" = true ∧
    (runDriver isFatalAuth envLimit ["A", "B"]
        (initState ⟨[], []⟩)).attempted = ["A", "B"] ∧
    (runDriver isFatalAuth envLimit ["A", "B"]
        (initState ⟨[], []⟩)).halted = false := by
  decide

/-! ## Claim C4 — unresolved product is a skip -/

/-- Claim C4, amended: when the resolver returns NotFound, the payload is
never built (no null product id reaches it) and no create call is made —
`createGoal` returns the skip early; the driver counts the skip and
continues without halting, but records nothing in the ledger — the progress
document is left unchanged (the claim's "records a skip in the ledger" is
what fails; see the counterexample). -/
theorem unresolved_product_skips (remote : SearchResult) (cache : Cache)
    (asin sku : String) (kws : TaskData) (st : RunState) (reason : String) :
    ((getProductId remote cache asin).1 = none →
      (createGoalSimplified remote cache asin sku kws).1
        = .skipped ("Product not found for ASIN: " ++ asin)) ∧
    (∀ pl : Payload, (getProductId remote cache asin).1 = none →
      (createGoalSimplified remote cache asin sku kws).1 ≠ .created pl) ∧
    (st.halted = false →
      stepDriver isFatalSimplified st asin (.skip reason)
        = { st with attempted := st.attempted ++ [asin],
                    skippedCount := st.skippedCount + 1 }) := by
  have hskip : (getProductId remote cache asin).1 = none →
      (createGoalSimplified remote cache asin sku kws).1
        = .skipped ("Product not found for ASIN: " ++ asin) := by
    intro h
    rcases hg : getProductId remote cache asin with ⟨r, c, k⟩
    rw [hg] at h
    simp only at h
    unfold createGoalSimplified
    rw [hg, h]
  refine ⟨hskip, ?_, ?_⟩
  · intro pl h hc
    rw [hskip h] at hc
    exact GoalResult.noConfusion hc
  · intro h
    unfold stepDriver
    simp [h]

/-- Concrete instance of `unresolved_product_skips`: an empty search result
yields the skip, no payload, and a driver step that only bumps the skip
counter. -/
theorem unresolved_product_skips_witness :
    (createGoalSimplified (.ok []) [] "B00UNKNOWN" "SKU1"
        ⟨"SKU1", ["kw"], [], []⟩).1
      = .skipped ("Product not found for ASIN: " ++ "B00UNKNOWN") ∧
    stepDriver isFatalSimplified (initState ⟨[], []⟩) "B00UNKNOWN"
        (.skip "Product not found for ASIN: B00UNKNOWN")
      = { initState ⟨[], []⟩ with
            attempted := [] ++ ["B00UNKNOWN"], skippedCount := 0 + 1 } :=
  ⟨(unresolved_product_skips (.ok []) [] "B00UNKNOWN" "SKU1"
      ⟨"SKU1", ["kw"], [], []⟩ (initState ⟨[], []⟩)
      "Product not found for ASIN: B00UNKNOWN").1 (by decide),
    (unresolved_product_skips (.ok []) [] "B00UNKNOWN" "SKU1"
      ⟨"SKU1", ["kw"], [], []⟩ (initState ⟨[], []⟩)
      "Product not found for ASIN: B00UNKNOWN").2.2 rfl⟩

/-- Counterexample to claim C4 as stated: after a run whose single task is
skipped, the progress ledger is exactly the initial empty document — the
skip was counted but never recorded in the ledger. -/
theorem skip_leaves_ledger_unchanged :
    (runDriver isFatalSimplified envSkip ["A"]
        (initState ⟨[], []⟩)).progress = ⟨[], []⟩ ∧
    (runDriver isFatalSimplified envSkip ["A"]
        (initState ⟨[], []⟩)).skippedCount = 1 ∧
    (runDriver isFatalSimplified envSkip ["A"]
        (initState ⟨[], []⟩)).attempted = ["A"] := by
  decide

/-! ## Claim C8 — inter-task delay -/

/-- Claim C8, amended: the rate-limit delay runs after every successful
attempt and after every non-fatal-error attempt (it is not skipped on
error), but a skipped attempt `continue`s past the delay and a fatal error
`break`s past it — over a whole run, sleeps = successes + errors, minus one
when the run halted.  The claim's "including skips" is what fails (see the
counterexample). -/
theorem delay_after_success_and_nonfatal_error (st : RunState)
    (asin msg reason : String) (f : String → Bool)
    (env : String → AttemptResult) (l : List String) (p : Progress) :
    (st.halted = false →
      (stepDriver f st asin .success).sleeps = st.sleeps + 1) ∧
    (st.halted = false → f msg = false →
      (stepDriver f st asin (.error msg)).sleeps = st.sleeps + 1) ∧
    (st.halted = false →
      (stepDriver f st asin (.skip reason)).sleeps = st.sleeps) ∧
    (runDriver f env l (initState p)).sleeps
        + haltBit (runDriver f env l (initState p))
      = (runDriver f env l (initState p)).successCount
        + (runDriver f env l (initState p)).errorCount := by
  refine ⟨?_, ?_, ?_, ?_⟩
  · intro h; unfold stepDriver; simp [h]
  · intro h hf; unfold stepDriver; simp [h, hf]
  · intro h; unfold stepDriver; simp [h]
  · exact sleeps_invariant_run f env l (initState p) rfl

/-- Concrete instance of `delay_after_success_and_nonfatal_error`. -/
theorem delay_after_success_and_nonfatal_error_witness :
    (stepDriver isFatalSimplified (initState ⟨[], []⟩) "A" .success).sleeps
      = 0 + 1 ∧
    (stepDriver isFatalSimplified (initState ⟨[], []⟩) "A"
        (.error "API error 500: server error")).sleeps = 0 + 1 ∧
    (stepDriver isFatalSimplified (initState ⟨[], []⟩) "A"
        (.skip "Product not found for ASIN: A")).sleeps = 0 :=
  ⟨(delay_after_success_and_nonfatal_error (initState ⟨[], []⟩) "A"
      "API error 500: server error" "Product not found for ASIN: A"
      isFatalSimplified envOk [] ⟨[], []⟩).1 rfl,
    (delay_after_success_and_nonfatal_error (initState ⟨[], []⟩) "A"
      "API error 500: server error" "Product not found for ASIN: A"
      isFatalSimplified envOk [] ⟨[], []⟩).2.1 rfl (by decide),
    (delay_after_success_and_nonfatal_error (initState ⟨[], []⟩) "A"
      "API error 500: server error" "Product not found for ASIN: A"
      isFatalSimplified envOk [] ⟨[], []⟩).2.2.1 rfl⟩

/-- Counterexample to claim C8 as stated: a run whose one attempt ends in a
skip performs zero rate-limit delays — the `continue` in the loop body
bypasses the sleep, so the delay is not enforced after every attempt. -/
theorem skip_bypasses_delay :
    (runDriver isFatalSimplified envSkip ["A"]
        (initState ⟨[], []⟩)).attempted = ["A"] ∧
    (runDriver isFatalSimplified envSkip ["A"]
        (initState ⟨[], []⟩)).sleeps = 0 := by
  decide
